import Mathlib

/-!
Shallow embedding of the `icp` command-line client (src/program.rs, src/cli.rs).

File-system access, standard input, the network session and the system clock
are modelled as explicit environment records; each Rust function that touches
them becomes a Lean function over such a record.  Rust `String::len` is byte
length, so it is embedded as `String.utf8ByteSize`.  A Rust panic (out of
bounds indexing) is an explicit `fault` outcome, distinct from the `Result`
error channel.
-/

deriving instance DecidableEq for Except

namespace Icp

/-- Error kind of a failed file read, mirroring `std::io::ErrorKind` as far as
`check_config_toml` distinguishes it. -/
inductive IoErrorKind where
  | notFound
  | permissionDenied
  | otherError
  deriving DecidableEq, Repr

/-- The error enumeration of the external `cli_42` crate, as far as
`program.rs` names or produces its variants (`ConfigFileNotFound`,
`BaseDirsNewError`, and the `From`-converted url/serde/toml/io/chrono
errors that the `?` operator introduces). -/
inductive SessionError where
  | configFileNotFound
  | baseDirsNewError
  | ioError (k : IoErrorKind)
  | urlParseError
  | jsonError
  | tomlError
  | timestampParseError
  | transportError
  deriving DecidableEq, Repr

/-- Modelled from the spec: the configuration shape the `cli_42::Session`
TOML deserialization yields, with its three required string fields; the
source reads them back through `get_client_id` / `get_client_secret`. -/
structure SessionConfig where
  client_id : String
  client_secret : String
  login : String
  deriving DecidableEq, Repr

/-- Embedding of check_client (program.rs:233): false when either credential string is
empty or its byte length exceeds 256, true otherwise. -/
def check_client (session : SessionConfig) : Bool :=
  if session.client_id.isEmpty || session.client_secret.isEmpty then
    false
  else if 256 < session.client_id.utf8ByteSize
      || 256 < session.client_secret.utf8ByteSize then
    false
  else
    true

/-- Outcome of `std::fs::read_to_string` followed by `toml::from_str` on the
configuration file: a successful read carries the parse outcome of its
content; a failed read carries the io error kind. -/
inductive ReadOutcome where
  | ok (parsed : Except Unit SessionConfig)
  | err (k : IoErrorKind)
  deriving DecidableEq, Repr

/-- Environment of the configuration functions: whether `BaseDirs::new()`
resolves, whether the config.toml file in the config directory exists, and what reading it
yields. -/
structure ConfigEnv where
  baseDirs : Option Unit
  fileExists : Bool
  readOutcome : ReadOutcome
  deriving DecidableEq, Repr

/-- Embedding of check_if_config_file_exists (program.rs:160): under a resolved base
directory it returns false exactly when the path does not exist; when
`BaseDirs::new()` yields `None` it falls through to `true`. -/
def check_if_config_file_exists (env : ConfigEnv) : Bool :=
  match env.baseDirs with
  | some _ => if !env.fileExists then false else true
  | none => true

/-- Embedding of check_config_toml (program.rs:201), returning its `Result` value paired
with the diagnostic lines written to standard error. -/
def check_config_toml (env : ConfigEnv) :
    Except SessionError Bool × List String :=
  match env.baseDirs with
  | some _ =>
    match env.readOutcome with
    | .ok parsed =>
      match parsed with
      | .ok config =>
        if !(check_client config) then (.ok false, [])
        else (.ok true, [])
      | .error _ => (.error .tomlError, [])
    | .err .notFound => (.ok false, ["config.toml not found"])
    | .err .permissionDenied => (.ok false, ["config.toml not readable"])
    | .err .otherError =>
        (.ok true, ["config.toml error.", "something went wrong."])
  | none => (.ok true, [])

/-- Environment of `Program::new`: the configuration environment, the outcome
of the interactive creation's file and standard-input operations (reached
only when the base directory resolves), and the outcome of the external
`Session::new(Some(Mode::Credentials))` call. -/
structure World where
  configEnv : ConfigEnv
  createOutcome : Except SessionError Unit
  sessionOutcome : Except SessionError Unit

/-- Embedding of create_config_toml (program.rs:170): under a resolved base directory it
performs the interactive file creation; otherwise it fails with
`BaseDirsNewError`. -/
def create_config_toml (w : World) : Except SessionError Unit :=
  match w.configEnv.baseDirs with
  | some _ => w.createOutcome
  | none => .error .baseDirsNewError

/-- How many times `Program::new` invoked each collaborator. -/
structure Trace where
  createCalls : Nat
  checkCalls : Nat
  sessionCalls : Nat
  deriving DecidableEq, Repr

/-- Embedding of Program::new (program.rs:33): create and validate the configuration
when the file is missing, then construct the session; paired with the
invocation trace. -/
def programNew (w : World) : Except SessionError Unit × Trace :=
  if !(check_if_config_file_exists w.configEnv) then
    match create_config_toml w with
    | .error e => (.error e, ⟨1, 0, 0⟩)
    | .ok _ =>
      match (check_config_toml w.configEnv).1 with
      | .ok result =>
        if !result then (.error .configFileNotFound, ⟨1, 1, 0⟩)
        else
          match w.sessionOutcome with
          | .ok _ => (.ok (), ⟨1, 1, 1⟩)
          | .error e => (.error e, ⟨1, 1, 1⟩)
      | .error _ =>
        match w.sessionOutcome with
        | .ok _ => (.ok (), ⟨1, 1, 1⟩)
        | .error e => (.error e, ⟨1, 1, 1⟩)
  else
    match w.sessionOutcome with
    | .ok _ => (.ok (), ⟨0, 0, 1⟩)
    | .error e => (.error e, ⟨0, 0, 1⟩)

/-- Modelled from the spec: `cli_42::results::user::UserElement`, the
user-summary element of the users-collection response; the source reads
its numeric `id`. -/
structure UserElement where
  id : Int
  deriving DecidableEq, Repr

/-- How one renderer or resolver run ends: normally, with a `SessionError`
carried by `?`, or with a Rust panic (out-of-bounds slice index). -/
inductive Outcome where
  | ok
  | err (e : SessionError)
  | fault
  deriving DecidableEq, Repr

/-- Result of the resolver: the value, a propagated error, or a panic. -/
inductive ResolveResult (α : Type) where
  | ok (a : α)
  | err (e : SessionError)
  | fault
  deriving DecidableEq, Repr

/-- Embedding of get_user_with_login (program.rs:73) over its effect outcomes: URL
construction, the session call, and the serde-json parse of the body into a
user array; `user[0].clone()` on an empty array is an out-of-bounds panic. -/
def get_user_with_login (urlOutcome : Except SessionError Unit)
    (callOutcome : Except SessionError String)
    (parseOutcome : Except SessionError (List UserElement)) :
    ResolveResult UserElement :=
  match urlOutcome with
  | .error e => .err e
  | .ok _ =>
    match callOutcome with
    | .error e => .err e
    | .ok _ =>
      match parseOutcome with
      | .error e => .err e
      | .ok users =>
        match users with
        | [] => .fault
        | u :: _ => .ok u

/-- Proleptic Gregorian leap-year rule. -/
def isLeapYear (y : Nat) : Bool :=
  y % 4 = 0 && (y % 100 ≠ 0 || y % 400 = 0)

/-- Length of month `m` (1-12) of year `y`. -/
def daysInMonth (y m : Nat) : Nat :=
  if m = 2 then (if isLeapYear y then 29 else 28)
  else if m = 4 || m = 6 || m = 9 || m = 11 then 30
  else 31

/-- Days in the proleptic Gregorian years `0, ..., y - 1`. -/
def daysBeforeYear (y : Nat) : Nat :=
  365 * y + (y + 3) / 4 - (y + 99) / 100 + (y + 399) / 400

/-- Days of year `y` strictly before month `m`. -/
def daysBeforeMonth (y m : Nat) : Nat :=
  (List.range (m - 1)).foldl (fun acc i => acc + daysInMonth y (i + 1)) 0

/-- Day count of the date `y-m-d` from 0000-01-01. -/
def dayNumber (y m d : Nat) : Nat :=
  daysBeforeYear y + daysBeforeMonth y m + (d - 1)

/-- Day count of the Unix epoch 1970-01-01 from 0000-01-01. -/
def epochDayNumber : Nat := dayNumber 1970 1 1

/-- Seconds since the Unix epoch of the UTC instant `y-m-d h:mi:s`. -/
def secondsSinceEpoch (y m d h mi s : Nat) : Int :=
  86400 * ((dayNumber y m d : Int) - (epochDayNumber : Int))
    + 3600 * (h : Int) + 60 * (mi : Int) + (s : Int)

/-- Numeric value of an ASCII digit. -/
def digitVal (c : Char) : Option Nat :=
  if '0' ≤ c && c ≤ '9' then some (c.toNat - '0'.toNat) else none

/-- Modelled from the spec: the str::parse DateTime-of-Utc timestamp
parse of the external chrono crate, restricted to the second-resolution
Zulu form `yyyy-mm-ddThh:mm:ssZ` of RFC 3339 that the API's
`blackholed_at` values use; any other string (in particular the empty
string) fails.  A success is the instant's seconds since the Unix epoch. -/
def parse_rfc3339_utc (s : String) : Option Int :=
  match s.data with
  | [y1, y2, y3, y4, c1, m1, m2, c2, d1, d2, c3, h1, h2, c4, n1, n2, c5, s1, s2, c6] =>
    if c1 = '-' && c2 = '-' && c3 = 'T' && c4 = ':' && c5 = ':' && c6 = 'Z' then do
      let year := (← digitVal y1) * 1000 + (← digitVal y2) * 100
        + (← digitVal y3) * 10 + (← digitVal y4)
      let month := (← digitVal m1) * 10 + (← digitVal m2)
      let day := (← digitVal d1) * 10 + (← digitVal d2)
      let hour := (← digitVal h1) * 10 + (← digitVal h2)
      let minute := (← digitVal n1) * 10 + (← digitVal n2)
      let second := (← digitVal s1) * 10 + (← digitVal s2)
      if 1 ≤ month && month ≤ 12 && 1 ≤ day && day ≤ daysInMonth year month
          && hour < 24 && minute < 60 && second < 60 then
        some (secondsSinceEpoch year month day hour minute second)
      else
        none
    else none
  | _ => none

/-- Embedding of chrono Duration::num_days on a whole-second duration: division of the
seconds by 86400 truncating toward zero, as Rust integer division does. -/
def num_days (secs : Int) : Int := Int.tdiv secs 86400

/-- Rust `format with width 20` left-aligns the label and pads it with
spaces, as the renderers print their fixed-width label column. -/
def padRight (s : String) (w : Nat) : String :=
  s ++ String.mk (List.replicate (w - s.length) ' ')

/-- Embedding of the title tokenization of program.rs:101, which splits the
first title name at the space character and takes the first piece: the
prefix of the string up to its first space character.  The iterator there
always yields a first piece, so the unwrap-or fallback never fires. -/
def firstSpaceToken (s : String) : String :=
  String.mk (s.data.takeWhile (fun c => !(c = ' ')))

/-- Modelled from the spec: the first whitespace-delimited token of a
string, the prefix up to the first whitespace character of any kind. -/
def firstWhitespaceToken (s : String) : String :=
  String.mk (s.data.takeWhile (fun c => !c.isWhitespace))

/-- Modelled from the spec: a `titles` element of the profile response. -/
structure Title where
  name : String
  deriving DecidableEq, Repr

/-- Modelled from the spec: the `cursus` object of a cursus enrollment. -/
structure Cursus where
  name : String
  deriving DecidableEq, Repr

/-- Modelled from the spec: a `cursus_users` element of the profile
response, with its optional grade and optional blackhole timestamp. -/
structure CursusUser where
  grade : Option String
  blackholed_at : Option String
  cursus : Cursus
  deriving DecidableEq, Repr

/-- Modelled from the spec: `cli_42::results::me::Me`, the deserialized
user-profile response with the fields the renderers read. -/
structure Me where
  displayname : String
  login : String
  email : String
  wallet : Int
  correction_point : Int
  titles : List Title
  cursus_users : List CursusUser
  deriving DecidableEq, Repr

/-- A renderer run: the lines printed to standard output before it ended,
and how it ended. -/
structure Render where
  out : List String
  res : Outcome
  deriving DecidableEq, Repr

/-- Embedding of wallet (program.rs:124). -/
def wallet (user : Me) : Render :=
  ⟨[padRight "Wallet" 20 ++ toString user.wallet], .ok⟩

/-- Embedding of correction_point (program.rs:139). -/
def correction_point (user : Me) : Render :=
  ⟨[padRight "Correction point" 20 ++ toString user.correction_point], .ok⟩

/-- Embedding of blackhole (program.rs:144) at current time `now` (seconds since the
epoch): read `cursus_users[1]` (a panic when absent), substitute the empty
string for a missing `blackholed_at`, parse it as a timestamp (an error
carried by the `?` operator when it fails), and print the truncated day
count of the signed duration from `now` to it. -/
def blackhole (now : Int) (user : Me) : Render :=
  match user.cursus_users[1]? with
  | none => ⟨[], .fault⟩
  | some cu =>
    match parse_rfc3339_utc (cu.blackholed_at.getD "") with
    | none => ⟨[], .err .timestampParseError⟩
    | some ts => ⟨[padRight "Blackhole" 20 ++ toString (num_days (ts - now))], .ok⟩

/-- Embedding of me (program.rs:97): the headline with the title segment, then the
wallet and correction-point lines, then the cursus and grade lines from
`cursus_users[1]` (a panic when absent, after the first three lines were
already printed), then the blackhole line. -/
def me (now : Int) (user : Me) : Render :=
  let title :=
    match user.titles with
    | [] => ""
    | t :: _ => firstSpaceToken t.name
  let line1 := user.displayname ++ " | " ++ title ++ " " ++ user.login
  let w := wallet user
  let c := correction_point user
  match user.cursus_users[1]? with
  | none => ⟨[line1] ++ w.out ++ c.out, .fault⟩
  | some cu =>
    let cursusLine := padRight "Cursus" 20 ++ cu.cursus.name
    let gradeLine := padRight "Grade" 20 ++ cu.grade.getD ""
    let bh := blackhole now user
    ⟨[line1] ++ w.out ++ c.out ++ [cursusLine, gradeLine] ++ bh.out, bh.res⟩

/-- A client id of 129 two-byte characters: 129 characters, 258 bytes. -/
def wideClientId : String := String.mk (List.replicate 129 'é')

/-- Environment whose configuration parses with the wide client id. -/
def multibyteEnv : ConfigEnv :=
  ⟨some (), true, .ok (.ok ⟨wideClientId, "secret", "jdoe"⟩)⟩

/-- Environment whose configuration parses with short non-empty secrets. -/
def goodEnv : ConfigEnv := ⟨some (), true, .ok (.ok ⟨"abc", "secret", "jdoe"⟩)⟩

/-- Environment whose configuration parses with an empty client id. -/
def emptyIdEnv : ConfigEnv := ⟨some (), true, .ok (.ok ⟨"", "secret", "jdoe"⟩)⟩

/-- Environment in which the platform base directories do not resolve and no
configuration file exists. -/
def noDirsEnv : ConfigEnv := ⟨none, false, .err .notFound⟩

/-- Environment with resolved directories but a missing file. -/
def notFoundEnv : ConfigEnv := ⟨some (), false, .err .notFound⟩

/-- World with unresolvable base directories and no configuration file. -/
def noDirsWorld : World := ⟨⟨none, false, .err .notFound⟩, .ok (), .ok ()⟩

/-- World in which the file is missing, interactive creation succeeds, and
the created file parses to a configuration with an empty client id. -/
def failValidationWorld : World :=
  ⟨⟨some (), false, .ok (.ok ⟨"", "secret", "jdoe"⟩)⟩, .ok (), .ok ()⟩

/-- World in which the configuration file already exists. -/
def existingConfigWorld : World :=
  ⟨⟨some (), true, .ok (.ok ⟨"abc", "secret", "jdoe"⟩)⟩, .ok (), .ok ()⟩

/-- World in which the file is missing, creation succeeds, and the created
file then fails TOML deserialization during validation. -/
def tomlErrorWorld : World := ⟨⟨some (), false, .ok (.error ())⟩, .ok (), .ok ()⟩

/-- Profile with no cursus enrollments at all. -/
def noCursusProfile : Me := ⟨"jane", "jdoe", "e", 0, 0, [], []⟩

/-- Profile whose second cursus enrollment has no blackhole timestamp. -/
def noBlackholeProfile : Me :=
  ⟨"jane", "jdoe", "e", 0, 0, [], [⟨none, none, ⟨"c0"⟩⟩, ⟨none, none, ⟨"c1"⟩⟩]⟩

/-- Current time of the blackhole scenario: 2024-01-01T00:00:00Z. -/
def scenarioNow : Int := secondsSinceEpoch 2024 1 1 0 0 0

/-- Profile of the blackhole scenario, blackholed at 2099-01-01T00:00:00Z in
the cursus enrollment at index 1. -/
def scenarioProfile : Me :=
  ⟨"jane", "jdoe", "e", 0, 0, [],
   [⟨none, none, ⟨"c0"⟩⟩, ⟨none, some "2099-01-01T00:00:00Z", ⟨"42cursus"⟩⟩]⟩

/-- Exact calendar-day difference from 2024-01-01 to 2099-01-01. -/
def calendarDayDiff : Int := (dayNumber 2099 1 1 : Int) - (dayNumber 2024 1 1 : Int)

/-- Current time one second after the just-past blackhole: 2024-01-01T00:00:01Z. -/
def justPastNow : Int := secondsSinceEpoch 2024 1 1 0 0 1

/-- Profile blackholed at 2024-01-01T00:00:00Z, one second in the past. -/
def justPastProfile : Me :=
  ⟨"jane", "jdoe", "e", 0, 0, [],
   [⟨none, none, ⟨"c0"⟩⟩, ⟨none, some "2024-01-01T00:00:00Z", ⟨"42cursus"⟩⟩]⟩

/-- Profile whose first title name contains a tab before its first space. -/
def tabTitleProfile : Me := ⟨"jane", "jdoe", "e", 0, 0, [⟨"a\tb c"⟩], []⟩

/-- Profile with an empty titles list. -/
def emptyTitlesProfile : Me := ⟨"jane", "jdoe", "e", 0, 0, [], []⟩

/-- Characterization of check_client: true exactly when both credential
strings are non-empty and of byte length at most 256. -/
theorem check_client_eq_true_iff (s : SessionConfig) :
    check_client s = true ↔
      (s.client_id ≠ "" ∧ s.client_secret ≠ "" ∧
       s.client_id.utf8ByteSize ≤ 256 ∧ s.client_secret.utf8ByteSize ≤ 256) := by
  unfold check_client
  split_ifs with h1 h2
  · simp only [Bool.or_eq_true, String.isEmpty_iff] at h1
    constructor
    · intro h
      cases h
    · rintro ⟨a, b, -, -⟩
      rcases h1 with h | h
      · exact a h
      · exact b h
  · simp only [Bool.or_eq_true, decide_eq_true_eq] at h2
    constructor
    · intro h
      cases h
    · rintro ⟨-, -, c, d⟩
      omega
  · simp only [Bool.or_eq_true, String.isEmpty_iff, not_or] at h1
    simp only [Bool.or_eq_true, decide_eq_true_eq, not_or, not_lt] at h2
    constructor
    · intro _
      exact ⟨h1.1, h1.2, h2.1, h2.2⟩
    · intro _
      rfl

/-- Under a resolved base directory the existence check reports exactly
whether the configuration file exists. -/
theorem config_exists_eq_fileExists (env : ConfigEnv) (u : Unit)
    (hdirs : env.baseDirs = some u) :
    check_if_config_file_exists env = env.fileExists := by
  cases hfe : env.fileExists <;> simp [check_if_config_file_exists, hdirs, hfe]

set_option maxRecDepth 4000 in
/-- C1 counterexample: a client id of 129 two-byte characters is non-empty
and at most 256 characters long, yet check_config_toml returns Ok false on
the configuration holding it, because the source compares byte lengths
(258 here), not character counts. -/
theorem check_config_toml_multibyte_counterexample :
    wideClientId ≠ "" ∧ wideClientId.length ≤ 256 ∧
    (check_config_toml multibyteEnv).1 = .ok false ∧
    (check_config_toml multibyteEnv).1 ≠ .ok true := by decide

/-- C1, amended: for every configuration that check_config_toml reads and
parses, validation returns Ok true when client_id and client_secret are
both non-empty and at most 256 bytes long in UTF-8 (which coincides with
256 characters for ASCII values), and Ok false when either field is empty
or longer than 256 bytes. -/
theorem check_config_toml_validates_client_bytes
    (env : ConfigEnv) (config : SessionConfig) (u : Unit)
    (hdirs : env.baseDirs = some u)
    (hread : env.readOutcome = .ok (.ok config)) :
    ((config.client_id ≠ "" ∧ config.client_secret ≠ "" ∧
      config.client_id.utf8ByteSize ≤ 256 ∧ config.client_secret.utf8ByteSize ≤ 256) →
      (check_config_toml env).1 = .ok true)
  ∧ ((config.client_id = "" ∨ config.client_secret = "" ∨
      256 < config.client_id.utf8ByteSize ∨ 256 < config.client_secret.utf8ByteSize) →
      (check_config_toml env).1 = .ok false) := by
  constructor
  · intro h
    have hc : check_client config = true := (check_client_eq_true_iff config).2 h
    simp [check_config_toml, hdirs, hread, hc]
  · intro h
    have hc : check_client config = false := by
      cases hcc : check_client config
      · rfl
      · exfalso
        rcases (check_client_eq_true_iff config).1 hcc with ⟨a, b, c, d⟩
        rcases h with h | h | h | h
        · exact a h
        · exact b h
        · omega
        · omega
    simp [check_config_toml, hdirs, hread, hc]

/-- C1 witness: a configuration with short non-empty credentials validates
to Ok true, and one with an empty client id validates to Ok false. -/
theorem check_config_toml_validates_client_bytes_witness :
    (check_config_toml goodEnv).1 = .ok true ∧
    (check_config_toml emptyIdEnv).1 = .ok false := by
  constructor
  · exact (check_config_toml_validates_client_bytes goodEnv ⟨"abc", "secret", "jdoe"⟩ () rfl rfl).1
      ⟨by decide, by decide, by decide, by decide⟩
  · exact (check_config_toml_validates_client_bytes emptyIdEnv ⟨"", "secret", "jdoe"⟩ () rfl rfl).2
      (Or.inl rfl)

/-- C5 counterexample: when the base directories cannot be resolved and no
configuration file exists, check_if_config_file_exists returns true, not
false as the claim states. -/
theorem config_exists_true_without_basedirs :
    check_if_config_file_exists noDirsEnv = true ∧
    noDirsEnv.fileExists = false ∧
    check_if_config_file_exists noDirsEnv ≠ false := by decide

/-- C5, amended: check_if_config_file_exists returns true iff either the
platform base directories cannot be resolved or the configuration file is
present; an unresolvable directory is thus reported as the configuration
existing (true), skipping interactive creation, rather than as missing. -/
theorem check_if_config_file_exists_iff (env : ConfigEnv) :
    check_if_config_file_exists env = true ↔
      (env.baseDirs = none ∨ env.fileExists = true) := by
  obtain ⟨bd, fe, ro⟩ := env
  cases bd <;> cases fe <;> simp [check_if_config_file_exists]

/-- C6: during validation a missing file or a permission error makes
check_config_toml return Ok false with one diagnostic line and no error,
while any other read failure emits only diagnostic lines and falls through
to Ok true, treating the configuration as valid. -/
theorem check_config_toml_read_errors (env : ConfigEnv) (u : Unit)
    (hdirs : env.baseDirs = some u) :
    (env.readOutcome = .err .notFound →
       check_config_toml env = (.ok false, ["config.toml not found"]))
  ∧ (env.readOutcome = .err .permissionDenied →
       check_config_toml env = (.ok false, ["config.toml not readable"]))
  ∧ (env.readOutcome = .err .otherError →
       check_config_toml env = (.ok true, ["config.toml error.", "something went wrong."])) := by
  refine ⟨fun h => ?_, fun h => ?_, fun h => ?_⟩ <;> simp [check_config_toml, hdirs, h]

/-- C6 witness: a missing configuration file yields Ok false and the
not-found diagnostic. -/
theorem check_config_toml_read_errors_witness :
    check_config_toml notFoundEnv = (.ok false, ["config.toml not found"]) :=
  (check_config_toml_read_errors notFoundEnv () rfl).1 rfl

/-- C2: when the users-collection response parses as an array with at least
one element, get_user_with_login returns the first element of that array
unchanged; when it parses as the empty array, resolution ends in an
out-of-bounds fault and never in a named error value. -/
theorem get_user_with_login_first_element
    (body : String) (users : List UserElement) :
    (∀ u us, users = u :: us →
       get_user_with_login (.ok ()) (.ok body) (.ok users) = .ok u)
  ∧ (users = [] →
       get_user_with_login (.ok ()) (.ok body) (.ok users) = .fault
       ∧ ∀ e, get_user_with_login (.ok ()) (.ok body) (.ok users) ≠ .err e) := by
  constructor
  · rintro u us rfl
    rfl
  · rintro rfl
    exact ⟨rfl, fun e h => nomatch h⟩

/-- C2 witness: a one-element array resolves to its element, and the empty
array resolves to the fault outcome. -/
theorem get_user_with_login_first_element_witness :
    get_user_with_login (.ok ()) (.ok "[]") (.ok [(⟨42⟩ : UserElement)]) = .ok ⟨42⟩
    ∧ get_user_with_login (.ok ()) (.ok "[]") (.ok ([] : List UserElement)) = .fault := by
  refine ⟨(get_user_with_login_first_element "[]" [⟨42⟩]).1 ⟨42⟩ [] rfl,
          ((get_user_with_login_first_element "[]" []).2 rfl).1⟩

/-- C4 counterexample: when the base directories do not resolve, the
configuration file does not exist and yet Program::new invokes neither
interactive creation nor validation and proceeds to the session, because
the existence check falls through to true. -/
theorem programNew_no_creation_without_basedirs :
    noDirsWorld.configEnv.fileExists = false
    ∧ (programNew noDirsWorld).2.createCalls = 0
    ∧ (programNew noDirsWorld).2.createCalls ≠ 1
    ∧ (programNew noDirsWorld).2.checkCalls = 0
    ∧ (programNew noDirsWorld).1 = .ok () := by decide

/-- C4, amended: on Program::new with a resolvable config directory, if the
configuration file does not exist then interactive creation is invoked
exactly once; if creation succeeds and validation reports false,
construction fails with the configuration-missing error before any session
construction; if the file exists, neither creation nor validation runs. -/
theorem programNew_bootstrap (w : World) (u : Unit)
    (hdirs : w.configEnv.baseDirs = some u) :
    (w.configEnv.fileExists = false → (programNew w).2.createCalls = 1)
  ∧ (w.configEnv.fileExists = false →
       create_config_toml w = .ok () →
       (check_config_toml w.configEnv).1 = .ok false →
       (programNew w).1 = .error .configFileNotFound ∧
       (programNew w).2.sessionCalls = 0)
  ∧ (w.configEnv.fileExists = true →
       (programNew w).2.createCalls = 0 ∧ (programNew w).2.checkCalls = 0) := by
  have hch := config_exists_eq_fileExists w.configEnv u hdirs
  refine ⟨fun hfe => ?_, fun hfe hc hv => ?_, fun hfe => ?_⟩
  · have h : check_if_config_file_exists w.configEnv = false := by rw [hch, hfe]
    simp only [programNew, h]
    cases hcr : create_config_toml w with
    | error e => rfl
    | ok a =>
      cases hvv : (check_config_toml w.configEnv).1 with
      | error e2 => cases hs : w.sessionOutcome <;> rfl
      | ok b =>
        cases b
        · rfl
        · cases hs : w.sessionOutcome <;> rfl
  · have h : check_if_config_file_exists w.configEnv = false := by rw [hch, hfe]
    constructor <;> simp [programNew, h, hc, hv]
  · have h : check_if_config_file_exists w.configEnv = true := by rw [hch, hfe]
    simp only [programNew, h]
    cases hs : w.sessionOutcome <;> exact ⟨rfl, rfl⟩

/-- C4 witness: with a missing file whose created configuration fails
validation, construction errors with the configuration-missing error after
one creation and before any session; with an existing file, neither
creation nor validation runs. -/
theorem programNew_bootstrap_witness :
    (programNew failValidationWorld).2.createCalls = 1
    ∧ (programNew failValidationWorld).1 = .error .configFileNotFound
    ∧ (programNew failValidationWorld).2.sessionCalls = 0
    ∧ (programNew existingConfigWorld).2.createCalls = 0
    ∧ (programNew existingConfigWorld).2.checkCalls = 0 := by
  have h1 := programNew_bootstrap failValidationWorld () rfl
  have h2 := programNew_bootstrap existingConfigWorld () rfl
  exact ⟨h1.1 rfl, (h1.2.1 rfl rfl rfl).1, (h1.2.1 rfl rfl rfl).2,
         (h2.2.2 rfl).1, (h2.2.2 rfl).2⟩

/-- C9: when the configuration file is absent, creation succeeds, and the
validation call itself returns an error, Program::new discards that error
and proceeds to construct the session; the result is then whatever session
construction yields. -/
theorem programNew_discards_validation_error (w : World) (e : SessionError)
    (hfe : w.configEnv.fileExists = false)
    (hc : create_config_toml w = .ok ())
    (hv : (check_config_toml w.configEnv).1 = .error e) :
    (programNew w).2.sessionCalls = 1
  ∧ (w.sessionOutcome = .ok () → (programNew w).1 = .ok ())
  ∧ (∀ e2, w.sessionOutcome = .error e2 → (programNew w).1 = .error e2) := by
  have hdirs : ∃ u, w.configEnv.baseDirs = some u := by
    unfold create_config_toml at hc
    cases hd : w.configEnv.baseDirs with
    | none => rw [hd] at hc; cases hc
    | some u => exact ⟨u, rfl⟩
  obtain ⟨u, hdirs⟩ := hdirs
  have h : check_if_config_file_exists w.configEnv = false := by
    rw [config_exists_eq_fileExists w.configEnv u hdirs, hfe]
  refine ⟨?_, fun hs => ?_, fun e2 hs => ?_⟩
  · simp only [programNew, h, hc, hv]
    cases hs : w.sessionOutcome <;> rfl
  · simp [programNew, h, hc, hv, hs]
  · simp [programNew, h, hc, hv, hs]

/-- C9 witness: with a TOML deserialization failure during validation of the
newly created file, construction still reaches the session exactly once and
succeeds. -/
theorem programNew_discards_validation_error_witness :
    (programNew tomlErrorWorld).2.sessionCalls = 1
    ∧ (programNew tomlErrorWorld).1 = .ok () := by
  have h := programNew_discards_validation_error tomlErrorWorld .tomlError rfl rfl rfl
  exact ⟨h.1, h.2.1 rfl⟩

/-- C10: for every profile whose cursus enrollment list has fewer than two
elements, the Me and Blackhole renderers end in the out-of-bounds fault at
index 1, and neither returns any error value of the error enumeration. -/
theorem cursus_index_fault_short_list (now : Int) (user : Me)
    (h : user.cursus_users.length < 2) :
    (me now user).res = .fault ∧ (blackhole now user).res = .fault
    ∧ (∀ e, (me now user).res ≠ .err e)
    ∧ (∀ e, (blackhole now user).res ≠ .err e) := by
  have hnone : user.cursus_users[1]? = none := List.getElem?_eq_none (by omega)
  refine ⟨?_, ?_, ?_, ?_⟩ <;> simp [me, blackhole, hnone]

/-- C10 witness: a profile with no cursus enrollments faults in both
renderers. -/
theorem cursus_index_fault_short_list_witness :
    (me 0 noCursusProfile).res = .fault ∧ (blackhole 0 noCursusProfile).res = .fault := by
  have h := cursus_index_fault_short_list 0 noCursusProfile (by decide)
  exact ⟨h.1, h.2.1⟩

/-- C7: for every profile whose cursus enrollment at index 1 has no
blackholed timestamp, the Blackhole renderer substitutes the empty string,
its timestamp parse fails, and the renderer returns the parse error having
printed nothing. -/
theorem blackhole_missing_timestamp_errors (now : Int) (user : Me) (cu : CursusUser)
    (h : user.cursus_users[1]? = some cu) (hb : cu.blackholed_at = none) :
    blackhole now user = ⟨[], .err .timestampParseError⟩ := by
  have hp : parse_rfc3339_utc "" = none := rfl
  simp [blackhole, h, hb, hp]

/-- C7 witness: a profile with two enrollments and no blackhole timestamp at
index 1 yields the parse error and no output. -/
theorem blackhole_missing_timestamp_errors_witness :
    blackhole 0 noBlackholeProfile = ⟨[], .err .timestampParseError⟩ :=
  blackhole_missing_timestamp_errors 0 noBlackholeProfile ⟨none, none, ⟨"c1"⟩⟩ rfl rfl

/-- On a nonnegative duration num_days is the floored quotient of the
seconds by 86400. -/
theorem num_days_of_nonneg {d : Int} (h : 0 ≤ d) :
    num_days d = ((d.toNat / 86400 : Nat) : Int) := by
  unfold num_days
  conv_lhs => rw [← Int.toNat_of_nonneg h]
  exact (Int.ofNat_tdiv _ _).symm

/-- On a nonpositive duration num_days is the negated floored quotient of
the magnitude by 86400, by truncation toward zero. -/
theorem num_days_of_nonpos {d : Int} (h : d ≤ 0) :
    num_days d = -((((-d).toNat / 86400 : Nat) : Int)) := by
  have h3 : (0 : Int) ≤ -d := by omega
  have h4 := num_days_of_nonneg h3
  unfold num_days at h4 ⊢
  calc Int.tdiv d 86400 = -(Int.tdiv (-d) 86400) := by
        rw [Int.neg_tdiv, Int.neg_neg]
    _ = -((((-d).toNat / 86400 : Nat) : Int)) := by rw [h4]

/-- C3 counterexample: with the blackhole timestamp one second before the
current time the timestamp is already past, yet the renderer prints a day
count of 0, which is not negative. -/
theorem blackhole_zero_when_just_past :
    parse_rfc3339_utc "2024-01-01T00:00:00Z" = some 1704067200
    ∧ 1704067200 < justPastNow
    ∧ blackhole justPastNow justPastProfile
        = ⟨[padRight "Blackhole" 20 ++ toString (0 : Int)], .ok⟩
    ∧ ¬(num_days (1704067200 - justPastNow) < 0) := by decide

/-- C3, amended: when the cursus enrollment at index 1 carries a timestamp
that parses, the Blackhole renderer prints the number of whole days of the
signed duration from now to the timestamp, truncated toward zero: the
floored day count when the timestamp is in the future, its negation
computed from the magnitude when it is past, strictly negative only once
the timestamp is at least one whole day past (a timestamp past by less
than a day prints 0); in the scenario with the blackhole at
2099-01-01T00:00:00Z and the current time 2024-01-01T00:00:00Z it prints
the positive exact calendar-day difference. -/
theorem blackhole_days_rendering
    (now ts : Int) (user : Me) (cu : CursusUser) (s : String)
    (h : user.cursus_users[1]? = some cu) (hb : cu.blackholed_at = some s)
    (hp : parse_rfc3339_utc s = some ts) :
    blackhole now user
      = ⟨[padRight "Blackhole" 20 ++ toString (num_days (ts - now))], .ok⟩
  ∧ (now ≤ ts → num_days (ts - now) = (((ts - now).toNat / 86400 : Nat) : Int))
  ∧ (ts ≤ now → num_days (ts - now) = -((((now - ts).toNat / 86400 : Nat) : Int)))
  ∧ (ts + 86400 ≤ now → num_days (ts - now) < 0)
  ∧ (blackhole scenarioNow scenarioProfile
       = ⟨[padRight "Blackhole" 20 ++ toString calendarDayDiff], .ok⟩
     ∧ 0 < calendarDayDiff) := by
  refine ⟨?_, fun hle => ?_, fun hge => ?_, fun hpast => ?_, ?_, ?_⟩
  · simp [blackhole, h, hb, hp]
  · exact num_days_of_nonneg (by omega)
  · rw [num_days_of_nonpos (by omega : ts - now ≤ 0)]
    have e : -(ts - now) = now - ts := by ring
    rw [e]
  · rw [num_days_of_nonpos (by omega : ts - now ≤ 0)]
    have hn : 0 < (-(ts - now)).toNat / 86400 :=
      Nat.div_pos (by omega) (by norm_num)
    omega
  · decide
  · decide

/-- C3 witness: the scenario profile renders the Blackhole line for the
timestamp at day number 47117 since the epoch. -/
theorem blackhole_days_rendering_witness :
    blackhole scenarioNow scenarioProfile
      = ⟨[padRight "Blackhole" 20 ++ toString (num_days (86400 * 47117 - scenarioNow))], .ok⟩ :=
  (blackhole_days_rendering scenarioNow (86400 * 47117) scenarioProfile
    ⟨none, some "2099-01-01T00:00:00Z", ⟨"42cursus"⟩⟩ "2099-01-01T00:00:00Z"
    rfl rfl (by decide)).1

/-- C8 counterexample: a first title name with a tab before its first space
is rendered with the tab kept in the segment, because the source splits at
the space character only; the first whitespace-delimited token differs. -/
theorem me_title_tab_counterexample :
    (me 0 tabTitleProfile).out.headD ""
      = "jane" ++ " | " ++ "a\tb" ++ " " ++ "jdoe"
    ∧ firstWhitespaceToken "a\tb c" = "a"
    ∧ ¬((me 0 tabTitleProfile).out.headD ""
        = "jane" ++ " | " ++ firstWhitespaceToken "a\tb c" ++ " " ++ "jdoe") := by decide

/-- C8, amended: on an empty titles list the headline of the Me renderer
carries an empty title segment and is still printed without error; on a
non-empty titles list the segment is the first space-delimited token of the
first title name (split at the space character only, not at every
whitespace character), alongside the display name and login. -/
theorem me_title_segment (now : Int) (user : Me) :
    (user.titles = [] →
       (me now user).out.headD ""
         = user.displayname ++ " | " ++ "" ++ " " ++ user.login)
  ∧ (∀ t rest, user.titles = t :: rest →
       (me now user).out.headD ""
         = user.displayname ++ " | " ++ firstSpaceToken t.name ++ " " ++ user.login) := by
  constructor
  · intro h
    cases hcu : user.cursus_users[1]? <;> simp [me, h, hcu]
  · rintro t rest h
    cases hcu : user.cursus_users[1]? <;> simp [me, h, hcu]

/-- C8 witness: the profile with no titles prints the empty title segment,
and the tab-title profile prints the space-delimited first token. -/
theorem me_title_segment_witness :
    (me 0 emptyTitlesProfile).out.headD ""
      = "jane" ++ " | " ++ "" ++ " " ++ "jdoe"
    ∧ (me 0 tabTitleProfile).out.headD ""
      = "jane" ++ " | " ++ firstSpaceToken "a\tb c" ++ " " ++ "jdoe" :=
  ⟨(me_title_segment 0 emptyTitlesProfile).1 rfl,
   (me_title_segment 0 tabTitleProfile).2 ⟨"a\tb c"⟩ [] rfl⟩

end Icp
